import Mathlib

/-!
Shallow embedding of `src/withData.js` from the `next-apollo` repository.

The module exports a factory `withApollo = apolloConfig => (PageComponent, {ssr}) => WithApollo`.
The decorated component `WithApollo` renders the page inside an `ApolloProvider`,
optionally exposes a `getServerSideProps` hook that runs a pre-render
data-fetching pass (`getDataFromTree`) and threads the extracted cache snapshot
to the browser, and manages a module-level client handle (`let apolloClient = null`)
that is reused in the browser and bypassed on the server.

Modelling conventions:
* JS plain objects are total functions `String → Option JsValue`; an absent key
  maps to `none`.  Spread syntax and `delete` become pointwise overriding and
  key removal on such functions.
* The module-level mutable variable `apolloClient` together with a fresh-id
  counter forms an explicit `World` state threaded through every call; each
  `new ApolloClient(...)` allocation receives a distinct `id`, which models JS
  object identity.
* `typeof window === 'undefined'` is the boolean parameter `windowUndefined`.
* The external `InMemoryCache` is modelled by its observable behaviour in this
  code: `restore` replaces the cache contents with a snapshot and `extract`
  reads them back.
* `getDataFromTree` is an external effectful function; it is a parameter that,
  given the page props and the client, reports an optional thrown error and the
  client's cache contents after the pass (the pass mutates the client's cache).
* Exceptions are modelled with `Except`: the wrapped component's own
  `getServerSideProps` may throw (its error propagates, it is outside the
  `try`), while a `getDataFromTree` error is data consumed by the `catch`
  block, which logs it.
-/

namespace NextApollo

/-- Serialized cache snapshot (`apolloState`): plain data threaded from server
render to browser.  Its internal structure is opaque to `withData.js`, so it is
modelled as an association list of opaque entries. -/
abbrev Snapshot := List (Nat × Nat)

/-- A normalized cache instance (the external `InMemoryCache`).  Only the
operations used by `withData.js` are modelled: `restore` and `extract`. -/
structure Cache where
  data : Snapshot
deriving DecidableEq

/-- Model of `cache.restore(snapshot)`: replaces the cache contents with the
snapshot (the `InMemoryCache` semantics) and returns the cache. -/
def Cache.restore (c : Cache) (s : Snapshot) : Cache :=
  { c with data := s }

/-- Model of `cache.extract()`: reads the cache contents back out as a
snapshot. -/
def Cache.extract (c : Cache) : Snapshot :=
  c.data

/-- Source: `const createDefaultCache = () => new InMemoryCache()`. -/
def createDefaultCache : Unit → Cache :=
  fun _ => { data := [] }

/-- Object keys used literally by `withData.js`. -/
def keySsrMode : String := "ssrMode"

/-- The `cache` key of a client configuration object. -/
def keyCache : String := "cache"

/-- The `createCache` key of a client configuration object. -/
def keyCreateCache : String := "createCache"

/-- The `apolloState` key merged into the returned page props. -/
def keyApolloState : String := "apolloState"

/-- Values stored in modelled JS objects: the kinds of values `withData.js`
reads or writes on configuration and props objects. -/
inductive JsValue where
  | bool (b : Bool)
  | num (n : Nat)
  | cacheVal (c : Cache)
  | cacheFactory (f : Unit → Cache)
  | snapshot (s : Snapshot)

/-- A JS plain object: a key is either absent (`none`) or holds a value. -/
def Obj : Type := String → Option JsValue

/-- The empty object `{}`. -/
def emptyObj : Obj :=
  fun _ => none

/-- Spread-style insertion `{...o, k0: v}`: the new binding overrides `o`. -/
def insertKey (o : Obj) (k0 : String) (v : JsValue) : Obj :=
  fun k => if k = k0 then some v else o k

/-- Model of `delete o[k0]`. -/
def deleteKey (o : Obj) (k0 : String) : Obj :=
  fun k => if k = k0 then none else o k

/-- The `res` object attached to a request context; only its `finished` flag is
read by `withData.js`. -/
structure Res where
  finished : Bool
deriving DecidableEq

/-- A request context (`context`): the fields `withData.js` inspects, plus an
identifier distinguishing requests. -/
structure Context where
  res : Option Res
  reqId : Nat
deriving DecidableEq

/-- Truthiness of `context.res && context.res.finished`. -/
def resIsFinished (c : Context) : Bool :=
  match c.res with
  | some r => r.finished
  | none => false

/-- An Apollo client instance as built by `new ApolloClient(config)`.  The `id`
field models JS object identity: each allocation gets a fresh id.  The `cache`
field is the cache the constructor receives under the `cache` key of its
configuration. -/
structure ApolloClient where
  id : Nat
  config : Obj
  cache : Cache

/-- The factory's `apolloConfig` argument: either a configuration object or a
function producing one from the request context (the context is `none` when
`initApolloClient` is called without one, as in the browser render path). -/
inductive ApolloConfig where
  | obj (o : Obj)
  | fn (f : Option Context → Obj)

/-- The lodash `isFunction(apolloConfig)` test. -/
def isFunction : ApolloConfig → Bool
  | ApolloConfig.fn _ => true
  | ApolloConfig.obj _ => false

/-- The configuration object actually used: `if (isFunction(apolloConfig))
apolloConfig = apolloConfig(context)`. -/
def resolveConfig (apolloConfig : ApolloConfig) (context : Option Context) : Obj :=
  match apolloConfig with
  | ApolloConfig.fn f => f context
  | ApolloConfig.obj o => o

/-- The cache factory chosen by `createApolloClient`:
`apolloConfig.createCache || createDefaultCache`. -/
def configuredFactory (apolloConfig : Obj) : Unit → Cache :=
  match apolloConfig keyCreateCache with
  | some (JsValue.cacheFactory f) => f
  | _ => createDefaultCache

/-- Source: `createApolloClient(apolloConfig, initialState = {})`.  Builds
`config = {ssrMode, cache: createCache().restore(initialState || {}), ...apolloConfig}`,
deletes `config.createCache` and calls `new ApolloClient(config)`.  A `none`
initial state models JS `null`/`undefined` (the `|| {}` fallback applies);
`freshId` is the identity of the allocated client. -/
def createApolloClient (windowUndefined : Bool) (apolloConfig : Obj)
    (initialState : Option Snapshot) (freshId : Nat) : ApolloClient :=
  let createCache := configuredFactory apolloConfig
  let config : Obj := deleteKey (fun k =>
    match apolloConfig k with
    | some v => some v
    | none =>
      if k = keySsrMode then some (JsValue.bool windowUndefined)
      else if k = keyCache then
        some (JsValue.cacheVal ((createCache ()).restore (initialState.getD [])))
      else none) keyCreateCache
  { id := freshId
    config := config
    cache :=
      match config keyCache with
      | some (JsValue.cacheVal c) => c
      | _ => { data := [] } }

/-- The process-wide mutable state of the module: the lazily-initialized client
handle `let apolloClient = null`, plus the allocation counter providing fresh
client identities. -/
structure World where
  apolloClient : Option ApolloClient
  nextId : Nat

/-- Source: `initApolloClient(apolloConfig, initialState = {}, context)`.
Resolves a function-valued configuration against the context, then on the
server (`windowUndefined`) always allocates a fresh client without touching the
module-level handle, while in the browser it creates the client once, stores it
in the handle and thereafter returns the stored instance. -/
def initApolloClient (windowUndefined : Bool) (apolloConfig : ApolloConfig)
    (initialState : Option Snapshot) (context : Option Context) (w : World) :
    ApolloClient × World :=
  let config := resolveConfig apolloConfig context
  if windowUndefined then
    (createApolloClient windowUndefined config initialState w.nextId,
     { w with nextId := w.nextId + 1 })
  else
    match w.apolloClient with
    | some client => (client, w)
    | none =>
      let client := createApolloClient windowUndefined config initialState w.nextId
      (client, { apolloClient := some client, nextId := w.nextId + 1 })

/-- The wrapped component's own `getServerSideProps`, when it defines one.  It
receives the context (carrying the freshly attached `context.apolloClient`) and
may throw. -/
def PageGssp : Type := Context → ApolloClient → Except Nat Obj

/-- Runs `PageComponent.getServerSideProps` when present; otherwise the page
props stay `{}`. -/
def pageGsspRun (pageGssp : Option PageGssp) (context : Context)
    (client : ApolloClient) : Except Nat Obj :=
  match pageGssp with
  | some f => f context client
  | none => Except.ok emptyObj

/-- The external `getDataFromTree` pass over `<AppTree pageProps={{...pageProps,
apolloClient}} />`: given the page props and the client, it returns the error it
throws (if any) and the contents of the client's cache after the pass (the pass
mutates the client's cache as queries resolve, even when it then throws). -/
def Gdft : Type := Obj → ApolloClient → Option Nat × Cache

/-- Result of one invocation of the decorated component's
`getServerSideProps`: the value returned or error propagated, the module state
afterwards, the errors logged by the `catch` block, and whether the
`getDataFromTree` pass actually ran. -/
structure GsspResult where
  props : Except Nat Obj
  world : World
  logged : List Nat
  ranGdft : Bool

/-- Source: `WithApollo.getServerSideProps = async context => {...}`.  Creates
the per-request client, runs the wrapped component's `getServerSideProps`,
returns early (without a snapshot) when the response is already finished, runs
`getDataFromTree` inside `try/catch` only on the server and only when `ssr` is
enabled, and finally merges `apolloState = apolloClient.cache.extract()` into
the page props. -/
def WithApollo.getServerSideProps (windowUndefined ssr : Bool)
    (pageGssp : Option PageGssp) (getDataFromTree : Gdft)
    (apolloConfig : ApolloConfig) (context : Context) (w : World) : GsspResult :=
  let p := initApolloClient windowUndefined apolloConfig none (some context) w
  let apolloClient := p.1
  let w1 := p.2
  match pageGsspRun pageGssp context apolloClient with
  | Except.error e =>
    { props := Except.error e, world := w1, logged := [], ranGdft := false }
  | Except.ok pageProps =>
    if windowUndefined && resIsFinished context then
      { props := Except.ok pageProps, world := w1, logged := [], ranGdft := false }
    else if windowUndefined && ssr then
      let q := getDataFromTree pageProps apolloClient
      let client' := { apolloClient with cache := q.2 }
      { props := Except.ok (insertKey pageProps keyApolloState
          (JsValue.snapshot client'.cache.extract))
        world := w1
        logged := match q.1 with | some e => [e] | none => []
        ranGdft := true }
    else
      { props := Except.ok (insertKey pageProps keyApolloState
          (JsValue.snapshot apolloClient.cache.extract))
        world := w1
        logged := []
        ranGdft := false }

/-- The props accepted by the decorated component:
`({ apolloClient, apolloState, ...pageProps })`. -/
structure WithApolloProps where
  apolloClient : Option ApolloClient
  apolloState : Option Snapshot
  pageProps : Obj

/-- What one render of `WithApollo` determines: the client handed to
`ApolloProvider`, the module state afterwards, and the props forwarded to the
wrapped page component. -/
structure RenderResult where
  client : ApolloClient
  world : World
  childProps : Obj

/-- Source: the body of `WithApollo`:
`const client = useMemo(() => apolloClient || initApolloClient(apolloConfig, apolloState), [])`,
rendering `<PageComponent {...pageProps} />` under an `ApolloProvider` for that
client.  A supplied (truthy) `apolloClient` prop is used directly; otherwise a
client is initialized from the configuration and the `apolloState` prop, with
no request context. -/
def WithApollo.render (windowUndefined : Bool) (apolloConfig : ApolloConfig)
    (props : WithApolloProps) (w : World) : RenderResult :=
  match props.apolloClient with
  | some client => { client := client, world := w, childProps := props.pageProps }
  | none =>
    let p := initApolloClient windowUndefined apolloConfig props.apolloState none w
    { client := p.1, world := p.2, childProps := props.pageProps }

/-- The wrapped page component, as far as `withData.js` inspects it: whether it
defines its own `getServerSideProps`. -/
structure PageComponent where
  getServerSideProps : Option PageGssp

/-- The decorated component returned by the decorator: its render behaviour and
its conditionally attached `getServerSideProps` hook (the extra `Bool` and
`Gdft` arguments supply the execution environment and the external
`getDataFromTree`). -/
structure DecoratedComponent where
  getServerSideProps : Option (Bool → Gdft → Context → World → GsspResult)
  render : Bool → WithApolloProps → World → RenderResult

/-- Source: the exported factory
`apolloConfig => (PageComponent, { ssr = true } = {}) => WithApollo`, with
`if (ssr || PageComponent.getServerSideProps) WithApollo.getServerSideProps = ...`. -/
def withApollo (apolloConfig : ApolloConfig) (pageComponent : PageComponent)
    (ssr : Bool) : DecoratedComponent :=
  { getServerSideProps :=
      if ssr || pageComponent.getServerSideProps.isSome then
        some (fun windowUndefined gdft context w =>
          WithApollo.getServerSideProps windowUndefined ssr
            pageComponent.getServerSideProps gdft apolloConfig context w)
      else none
    render := fun windowUndefined props w =>
      WithApollo.render windowUndefined apolloConfig props w }

/-- Looks a key up in the props returned by a `getServerSideProps` invocation
(`none` when the invocation propagated an error). -/
def propsAt (r : GsspResult) (k : String) : Option JsValue :=
  match r.props with
  | Except.ok o => o k
  | Except.error _ => none

/-- The client whose cache the hook extracts its snapshot from: the per-request
client, with its cache mutated by the `getDataFromTree` pass exactly when that
pass runs (server side with `ssr` enabled). -/
def fetchedClient (windowUndefined ssr : Bool) (getDataFromTree : Gdft)
    (pageProps : Obj) (client : ApolloClient) : ApolloClient :=
  if windowUndefined && ssr then
    { client with cache := (getDataFromTree pageProps client).2 }
  else client

/-- Claim C1: in a server execution context (window undefined) every call to
`initApolloClient` returns a brand-new client built by `createApolloClient`;
the process-wide handle is neither consulted (the result is the same whatever
the handle holds) nor reassigned, and two consecutive server-side calls return
clients with distinct identities. -/
theorem initApolloClient_server_always_fresh
    (apolloConfig apolloConfig' : ApolloConfig)
    (initialState initialState' : Option Snapshot)
    (context context' : Option Context) (g : Option ApolloClient) (n : Nat) :
    (initApolloClient true apolloConfig initialState context
        { apolloClient := g, nextId := n }).1
      = createApolloClient true (resolveConfig apolloConfig context) initialState n
    ∧ (initApolloClient true apolloConfig initialState context
        { apolloClient := g, nextId := n }).2.apolloClient = g
    ∧ (initApolloClient true apolloConfig' initialState' context'
        (initApolloClient true apolloConfig initialState context
          { apolloClient := g, nextId := n }).2).1.id
      ≠ (initApolloClient true apolloConfig initialState context
          { apolloClient := g, nextId := n }).1.id := by
  refine ⟨rfl, rfl, ?_⟩
  simp [initApolloClient, createApolloClient]

/-- Claim C2: in a browser execution context the first call to
`initApolloClient` creates the client and stores it in the process-wide handle,
and any call that finds the handle non-null returns that same stored instance
and leaves the state unchanged, so the handle is never reassigned once
non-null. -/
theorem initApolloClient_browser_reuses_handle
    (apolloConfig apolloConfig' : ApolloConfig)
    (initialState initialState' : Option Snapshot)
    (context context' : Option Context) (client : ApolloClient) (n m : Nat) :
    initApolloClient false apolloConfig initialState context
        { apolloClient := some client, nextId := n }
      = (client, { apolloClient := some client, nextId := n })
    ∧ (initApolloClient false apolloConfig initialState context
        { apolloClient := none, nextId := m }).2.apolloClient
      = some (initApolloClient false apolloConfig initialState context
          { apolloClient := none, nextId := m }).1
    ∧ initApolloClient false apolloConfig' initialState' context'
        (initApolloClient false apolloConfig initialState context
          { apolloClient := none, nextId := m }).2
      = ((initApolloClient false apolloConfig initialState context
          { apolloClient := none, nextId := m }).1,
         (initApolloClient false apolloConfig initialState context
          { apolloClient := none, nextId := m }).2) := by
  refine ⟨rfl, rfl, ?_⟩
  simp [initApolloClient]

/-- Claim C7: when the supplied `apolloConfig` is a function,
`initApolloClient` applies it to the request context and proceeds with its
return value as the configuration object; when it is an object it is used
as-is. -/
theorem initApolloClient_resolves_function_config
    (f : Option Context → Obj) (o : Obj) (windowUndefined : Bool)
    (initialState : Option Snapshot) (context : Option Context) (w : World) :
    initApolloClient windowUndefined (ApolloConfig.fn f) initialState context w
      = initApolloClient windowUndefined (ApolloConfig.obj (f context))
          initialState context w
    ∧ resolveConfig (ApolloConfig.fn f) context = f context
    ∧ resolveConfig (ApolloConfig.obj o) context = o :=
  ⟨rfl, rfl, rfl⟩

/-- Claim C8: when an `apolloClient` prop is supplied the decorated component
renders with exactly that client and initializes nothing (the module state is
untouched); when it is absent, the client is the one produced by
`initApolloClient` from the factory's configuration and the `apolloState`
prop. -/
theorem render_prefers_supplied_client
    (windowUndefined : Bool) (apolloConfig : ApolloConfig) (client : ApolloClient)
    (apolloState : Option Snapshot) (pageProps : Obj) (w : World) :
    WithApollo.render windowUndefined apolloConfig
        { apolloClient := some client, apolloState := apolloState,
          pageProps := pageProps } w
      = { client := client, world := w, childProps := pageProps }
    ∧ WithApollo.render windowUndefined apolloConfig
        { apolloClient := none, apolloState := apolloState,
          pageProps := pageProps } w
      = { client := (initApolloClient windowUndefined apolloConfig apolloState
            none w).1,
          world := (initApolloClient windowUndefined apolloConfig apolloState
            none w).2,
          childProps := pageProps } :=
  ⟨rfl, rfl⟩

/-- Claim C10: the configuration object handed to the `ApolloClient`
constructor never contains a `createCache` key; every other key of the supplied
configuration is passed through unchanged (hence overrides the default
`ssrMode` and `cache` fields); and a null initial state is interchangeable with
the empty snapshot. -/
theorem createApolloClient_config_shape
    (windowUndefined : Bool) (apolloConfig : Obj)
    (initialState : Option Snapshot) (freshId : Nat) :
    (createApolloClient windowUndefined apolloConfig initialState freshId).config
        keyCreateCache = none
    ∧ (∀ (k : String) (v : JsValue), k ≠ keyCreateCache → apolloConfig k = some v →
        (createApolloClient windowUndefined apolloConfig initialState
          freshId).config k = some v)
    ∧ createApolloClient windowUndefined apolloConfig none freshId
      = createApolloClient windowUndefined apolloConfig (some []) freshId := by
  refine ⟨rfl, ?_, rfl⟩
  intro k v hk hv
  simp [createApolloClient, deleteKey, hk, hv]

/-- Witness for C10 at a concrete configuration holding one extra key: the key
survives unchanged while `createCache` is absent from the constructor's
configuration, and a null initial state behaves as the empty snapshot. -/
theorem createApolloClient_config_shape_witness :
    (createApolloClient true
        (insertKey emptyObj keySsrMode (JsValue.bool false)) none 0).config
        keyCreateCache = none
    ∧ (createApolloClient true
        (insertKey emptyObj keySsrMode (JsValue.bool false)) none 0).config
        keySsrMode = some (JsValue.bool false)
    ∧ createApolloClient true
        (insertKey emptyObj keySsrMode (JsValue.bool false)) none 0
      = createApolloClient true
          (insertKey emptyObj keySsrMode (JsValue.bool false)) (some []) 0 := by
  have h := createApolloClient_config_shape true
    (insertKey emptyObj keySsrMode (JsValue.bool false)) none 0
  exact ⟨h.1, h.2.1 keySsrMode (JsValue.bool false) (by decide) rfl, h.2.2⟩

/-- Helper: the cache of a freshly created client is the configured factory's
cache restored from the initial state, whenever the supplied configuration does
not itself carry a `cache` key (which the spread would pass through). -/
theorem createApolloClient_cache_no_override (windowUndefined : Bool)
    (apolloConfig : Obj) (initialState : Option Snapshot) (freshId : Nat)
    (h : apolloConfig keyCache = none) :
    (createApolloClient windowUndefined apolloConfig initialState freshId).cache
      = Cache.restore (configuredFactory apolloConfig ())
          (initialState.getD []) := by
  have hck : (keyCache = keyCreateCache) = False := by
    simp [keyCache, keyCreateCache]
  have hcs : (keyCache = keySsrMode) = False := by
    simp [keyCache, keySsrMode]
  simp [createApolloClient, deleteKey, hck, hcs, h, Cache.restore]

/-- Claim C3: when the `getDataFromTree` pass throws, the error is caught and
logged, and the hook still completes normally, returning the page props merged
with the snapshot extracted from the client's (possibly partially filled)
cache; no error is propagated. -/
theorem getServerSideProps_catches_gdft_error
    (pageGssp : Option PageGssp) (getDataFromTree : Gdft)
    (apolloConfig : ApolloConfig) (context : Context) (w : World)
    (pageProps : Obj) (e : Nat) (cache' : Cache)
    (hres : resIsFinished context = false)
    (hpp : pageGsspRun pageGssp context
      (initApolloClient true apolloConfig none (some context) w).1
      = Except.ok pageProps)
    (hg : getDataFromTree pageProps
      (initApolloClient true apolloConfig none (some context) w).1
      = (some e, cache')) :
    (WithApollo.getServerSideProps true true pageGssp getDataFromTree
        apolloConfig context w).props
      = Except.ok (insertKey pageProps keyApolloState
          (JsValue.snapshot (Cache.extract cache')))
    ∧ (WithApollo.getServerSideProps true true pageGssp getDataFromTree
        apolloConfig context w).logged = [e] := by
  constructor <;> simp [WithApollo.getServerSideProps, hpp, hres, hg]

/-- Witness for C3: a concrete invocation whose data-fetching pass throws error
`7` after writing one cache entry; the hook returns merged props and logs the
error. -/
theorem getServerSideProps_catches_gdft_error_witness :
    (WithApollo.getServerSideProps true true none
        (fun _ _ => (some 7, { data := [(0, 1)] })) (ApolloConfig.obj emptyObj)
        { res := none, reqId := 0 } { apolloClient := none, nextId := 0 }).props
      = Except.ok (insertKey emptyObj keyApolloState
          (JsValue.snapshot (Cache.extract { data := [(0, 1)] })))
    ∧ (WithApollo.getServerSideProps true true none
        (fun _ _ => (some 7, { data := [(0, 1)] })) (ApolloConfig.obj emptyObj)
        { res := none, reqId := 0 } { apolloClient := none, nextId := 0 }).logged
      = [7] :=
  getServerSideProps_catches_gdft_error none
    (fun _ _ => (some 7, { data := [(0, 1)] })) (ApolloConfig.obj emptyObj)
    { res := none, reqId := 0 } { apolloClient := none, nextId := 0 }
    emptyObj 7 { data := [(0, 1)] } rfl rfl rfl

/-- Claim C4: the decorated component exposes a `getServerSideProps` hook
exactly when `ssr` is true or the wrapped component defines its own hook, and
the `getDataFromTree` pass runs only when `ssr` is enabled and the code is
running server-side. -/
theorem ssr_flag_controls_data_fetch
    (apolloConfig : ApolloConfig) (pageComponent : PageComponent) (ssr : Bool) :
    (withApollo apolloConfig pageComponent ssr).getServerSideProps.isSome
      = (ssr || pageComponent.getServerSideProps.isSome)
    ∧ ∀ (windowUndefined : Bool) (getDataFromTree : Gdft) (context : Context)
        (w : World),
        (WithApollo.getServerSideProps windowUndefined ssr
          pageComponent.getServerSideProps getDataFromTree apolloConfig context
          w).ranGdft = true →
        ssr = true ∧ windowUndefined = true := by
  constructor
  · by_cases h : (ssr || pageComponent.getServerSideProps.isSome) = true
    · simp [withApollo, h]
    · simp [withApollo, h]
  · intro windowUndefined getDataFromTree context w h
    simp only [WithApollo.getServerSideProps] at h
    rcases hpg : pageGsspRun pageComponent.getServerSideProps context
        (initApolloClient windowUndefined apolloConfig none (some context) w).1
      with e | pageProps
    · rw [hpg] at h
      simp at h
    · rw [hpg] at h
      cases windowUndefined
      · cases ssr
        · simp at h
        · simp at h
      · cases ssr
        · cases hr : resIsFinished context <;> rw [hr] at h <;> simp at h
        · exact ⟨rfl, rfl⟩

/-- Witness for C4: with `ssr` enabled the hook is attached, and on a concrete
server-side invocation that actually runs `getDataFromTree`, the implication
confirms both flags. -/
theorem ssr_flag_controls_data_fetch_witness :
    (withApollo (ApolloConfig.obj emptyObj)
        { getServerSideProps := none } true).getServerSideProps.isSome
      = (true || ({ getServerSideProps := none } :
          PageComponent).getServerSideProps.isSome)
    ∧ (true = true ∧ true = true) := by
  have h := ssr_flag_controls_data_fetch (ApolloConfig.obj emptyObj)
    { getServerSideProps := none } true
  exact ⟨h.1, h.2 true (fun _ _ => (none, { data := [] }))
    { res := none, reqId := 0 } { apolloClient := none, nextId := 0 } rfl⟩

/-- Claim C9: when the response attached to the context is already finished (a
redirect), the hook returns the wrapped component's page props unchanged: no
data-fetching pass runs and no `apolloState` snapshot is merged in. -/
theorem redirect_returns_props_unchanged
    (ssr : Bool) (pageGssp : Option PageGssp) (getDataFromTree : Gdft)
    (apolloConfig : ApolloConfig) (context : Context) (w : World)
    (pageProps : Obj)
    (hfin : resIsFinished context = true)
    (hpp : pageGsspRun pageGssp context
      (initApolloClient true apolloConfig none (some context) w).1
      = Except.ok pageProps) :
    (WithApollo.getServerSideProps true ssr pageGssp getDataFromTree
        apolloConfig context w).props = Except.ok pageProps
    ∧ (WithApollo.getServerSideProps true ssr pageGssp getDataFromTree
        apolloConfig context w).ranGdft = false
    ∧ propsAt (WithApollo.getServerSideProps true ssr pageGssp getDataFromTree
        apolloConfig context w) keyApolloState = pageProps keyApolloState := by
  have h1 : (WithApollo.getServerSideProps true ssr pageGssp getDataFromTree
      apolloConfig context w).props = Except.ok pageProps := by
    simp [WithApollo.getServerSideProps, hpp, hfin]
  refine ⟨h1, ?_, ?_⟩
  · simp [WithApollo.getServerSideProps, hpp, hfin]
  · simp [propsAt, h1]

/-- Witness for C9: a concrete redirecting invocation returns `{}` untouched,
skips the data-fetching pass, and leaves `apolloState` absent. -/
theorem redirect_returns_props_unchanged_witness :
    (WithApollo.getServerSideProps true true none
        (fun _ _ => (none, { data := [(0, 1)] })) (ApolloConfig.obj emptyObj)
        { res := some { finished := true }, reqId := 0 }
        { apolloClient := none, nextId := 0 }).props = Except.ok emptyObj
    ∧ (WithApollo.getServerSideProps true true none
        (fun _ _ => (none, { data := [(0, 1)] })) (ApolloConfig.obj emptyObj)
        { res := some { finished := true }, reqId := 0 }
        { apolloClient := none, nextId := 0 }).ranGdft = false
    ∧ propsAt (WithApollo.getServerSideProps true true none
        (fun _ _ => (none, { data := [(0, 1)] })) (ApolloConfig.obj emptyObj)
        { res := some { finished := true }, reqId := 0 }
        { apolloClient := none, nextId := 0 }) keyApolloState
      = emptyObj keyApolloState :=
  redirect_returns_props_unchanged true none
    (fun _ _ => (none, { data := [(0, 1)] })) (ApolloConfig.obj emptyObj)
    { res := some { finished := true }, reqId := 0 }
    { apolloClient := none, nextId := 0 } emptyObj rfl rfl

/-- Counterexample to C5 as stated: on a redirecting invocation (response
already finished) the hook returns the page props unchanged, with no
`apolloState` field, so not every invocation returns props merged with a cache
snapshot. -/
theorem getServerSideProps_redirect_lacks_snapshot :
    (WithApollo.getServerSideProps true true none
        (fun _ _ => (none, { data := [] })) (ApolloConfig.obj emptyObj)
        { res := some { finished := true }, reqId := 0 }
        { apolloClient := none, nextId := 0 }).props = Except.ok emptyObj
    ∧ propsAt (WithApollo.getServerSideProps true true none
        (fun _ _ => (none, { data := [] })) (ApolloConfig.obj emptyObj)
        { res := some { finished := true }, reqId := 0 }
        { apolloClient := none, nextId := 0 }) keyApolloState = none :=
  ⟨rfl, rfl⟩

/-- Claim C5 (amended): on every invocation that does not hit the server-side
redirect early-return, the hook returns the wrapped component's props (or the
empty object when it defines no `getServerSideProps`) extended with an
`apolloState` field holding the extracted cache of the per-request client —
the cache left by the `getDataFromTree` pass when that pass ran, the client's
initial cache otherwise. -/
theorem getServerSideProps_merges_snapshot
    (windowUndefined ssr : Bool) (pageGssp : Option PageGssp)
    (getDataFromTree : Gdft) (apolloConfig : ApolloConfig) (context : Context)
    (w : World) (pageProps : Obj)
    (hnr : (windowUndefined && resIsFinished context) = false)
    (hpp : pageGsspRun pageGssp context
      (initApolloClient windowUndefined apolloConfig none (some context) w).1
      = Except.ok pageProps) :
    (WithApollo.getServerSideProps windowUndefined ssr pageGssp getDataFromTree
        apolloConfig context w).props
      = Except.ok (insertKey pageProps keyApolloState
          (JsValue.snapshot (fetchedClient windowUndefined ssr getDataFromTree
            pageProps (initApolloClient windowUndefined apolloConfig none
              (some context) w).1).cache.extract)) := by
  by_cases h2 : (windowUndefined && ssr) = true
  · simp [WithApollo.getServerSideProps, hpp, hnr, h2, fetchedClient]
  · simp [WithApollo.getServerSideProps, hpp, hnr, h2, fetchedClient]

/-- Witness for amended C5: a concrete server-side invocation with `ssr`
enabled returns `{}` extended with the snapshot written by the data-fetching
pass. -/
theorem getServerSideProps_merges_snapshot_witness :
    (WithApollo.getServerSideProps true true none
        (fun _ _ => (none, { data := [(0, 5)] })) (ApolloConfig.obj emptyObj)
        { res := none, reqId := 0 } { apolloClient := none, nextId := 0 }).props
      = Except.ok (insertKey emptyObj keyApolloState
          (JsValue.snapshot (fetchedClient true true
            (fun _ _ => (none, { data := [(0, 5)] })) emptyObj
            (initApolloClient true (ApolloConfig.obj emptyObj) none
              (some { res := none, reqId := 0 })
              { apolloClient := none, nextId := 0 }).1).cache.extract)) :=
  getServerSideProps_merges_snapshot true true none
    (fun _ _ => (none, { data := [(0, 5)] })) (ApolloConfig.obj emptyObj)
    { res := none, reqId := 0 } { apolloClient := none, nextId := 0 }
    emptyObj rfl rfl

/-- Counterexample to C6 as stated: a configuration carrying its own `cache`
key is spread over the defaults, so the browser client's cache is the
configured cache, not the restore of the snapshot produced by the hook — the
server state is not rehydrated. -/
theorem cache_override_defeats_rehydration :
    propsAt (WithApollo.getServerSideProps true true none
        (fun _ _ => (none, { data := [(1, 2)] }))
        (ApolloConfig.obj (insertKey emptyObj keyCache
          (JsValue.cacheVal { data := [(9, 9)] })))
        { res := none, reqId := 0 } { apolloClient := none, nextId := 0 })
        keyApolloState = some (JsValue.snapshot [(1, 2)])
    ∧ (WithApollo.render false
        (ApolloConfig.obj (insertKey emptyObj keyCache
          (JsValue.cacheVal { data := [(9, 9)] })))
        { apolloClient := none, apolloState := some [(1, 2)],
          pageProps := emptyObj }
        { apolloClient := none, nextId := 0 }).client.cache
      = { data := [(9, 9)] }
    ∧ ({ data := [(9, 9)] } : Cache)
      ≠ Cache.restore (createDefaultCache ()) [(1, 2)] := by
  refine ⟨rfl, rfl, by decide⟩

/-- Claim C6 (amended): the snapshot returned by the hook is the extraction of
the server client's cache, and when the decorated component later initializes
a browser client (uninitialized handle) with that snapshot, then — provided
the supplied configuration does not itself carry a `cache` key — the new
client's cache is the configured factory's cache restored from exactly that
snapshot, whose extraction gives the snapshot back. -/
theorem cache_snapshot_round_trip
    (ssr : Bool) (pageGssp : Option PageGssp) (getDataFromTree : Gdft)
    (apolloConfig : ApolloConfig) (context : Context) (w : World)
    (s : Snapshot) (pagePropsB : Obj) (n : Nat)
    (hs : propsAt (WithApollo.getServerSideProps true ssr pageGssp
        getDataFromTree apolloConfig context w) keyApolloState
      = some (JsValue.snapshot s))
    (hnc : resolveConfig apolloConfig none keyCache = none) :
    (WithApollo.render false apolloConfig
        { apolloClient := none, apolloState := some s, pageProps := pagePropsB }
        { apolloClient := none, nextId := n }).client.cache
      = Cache.restore (configuredFactory (resolveConfig apolloConfig none) ()) s
    ∧ Cache.extract (WithApollo.render false apolloConfig
        { apolloClient := none, apolloState := some s, pageProps := pagePropsB }
        { apolloClient := none, nextId := n }).client.cache = s := by
  have h1 : (WithApollo.render false apolloConfig
      { apolloClient := none, apolloState := some s, pageProps := pagePropsB }
      { apolloClient := none, nextId := n }).client
      = createApolloClient false (resolveConfig apolloConfig none) (some s) n :=
    rfl
  constructor
  · rw [h1, createApolloClient_cache_no_override false _ _ _ hnc]
    rfl
  · rw [h1, createApolloClient_cache_no_override false _ _ _ hnc]
    rfl

/-- Witness for amended C6: a concrete hook run produces the snapshot written
by the data-fetching pass, and a fresh browser render with a plain
configuration restores exactly that snapshot into the new client's cache. -/
theorem cache_snapshot_round_trip_witness :
    (WithApollo.render false (ApolloConfig.obj emptyObj)
        { apolloClient := none, apolloState := some [(1, 2)],
          pageProps := emptyObj }
        { apolloClient := none, nextId := 0 }).client.cache
      = Cache.restore
          (configuredFactory (resolveConfig (ApolloConfig.obj emptyObj) none) ())
          [(1, 2)]
    ∧ Cache.extract (WithApollo.render false (ApolloConfig.obj emptyObj)
        { apolloClient := none, apolloState := some [(1, 2)],
          pageProps := emptyObj }
        { apolloClient := none, nextId := 0 }).client.cache = [(1, 2)] :=
  cache_snapshot_round_trip true none
    (fun _ _ => (none, { data := [(1, 2)] })) (ApolloConfig.obj emptyObj)
    { res := none, reqId := 0 } { apolloClient := none, nextId := 0 }
    [(1, 2)] emptyObj 0 rfl rfl

end NextApollo
